import Mathlib

/-!
Verification of the DZAIR sales ledger (src/main.py) against its
natural-language specification.

The embedding below translates the core of `main.py` into Lean:

* the pure profit formulas `tot_livraison`, `p_fayda`, `fayda_safia`;
* the invoice sequencer `generate_invoice_no`;
* the ledger transition `add_sale` (client/product lookup, input
  validation, snapshotting, derived fields, the three row writes);
* the filtered query `refresh_sales` and the aggregation
  `refresh_dashboard`.

Modelling conventions:

* SQLite REAL values and Python floats are modelled as exact rationals
  (the spec states that no rounding is applied internally);
* a SQLite NULL column is an `Option`;
* database tables are Lean lists in insertion order; `ORDER BY ... DESC`
  over the AUTOINCREMENT primary key is `List.reverse` / `List.getLast?`
  of the filtered list;
* Python `int(...)` and `float(...)` on strings are modelled by
  `pyIntParse` and `pyFloatParse` (finite decimal literals; the
  `inf`/`nan` spellings accepted by `float` are outside the model);
* `datetime.fromisoformat` is modelled on date-only `YYYY-MM-DD`
  strings, the only format the application itself produces and the one
  its date-filter UI documents;
* the Tk message boxes reporting a failure are the spec taxonomy
  `NotFoundError` / `ValidationError`, modelled by `Err`.
-/

namespace Dzair

/-! ## Character and digit utilities -/

/-- Numeric value of a digit character. -/
def digitVal (c : Char) : Nat := c.toNat - 48

/-- Little-endian decimal digits of `n` (empty for `0`), with `fuel`
bounding the recursion depth.  `Nat.digitChar` maps `0,...,9` to
`'0',...,'9'`. -/
def natDigitsAux : Nat → Nat → List Char
  | 0, _ => []
  | _ + 1, 0 => []
  | fuel + 1, n + 1 => Nat.digitChar ((n + 1) % 10) :: natDigitsAux fuel ((n + 1) / 10)

/-- Decimal rendering of a natural number, as produced by a Python
f-string such as `f"{year}"` (no padding, no sign). -/
def natDigits (n : Nat) : List Char :=
  if n = 0 then ['0'] else (natDigitsAux n n).reverse

/-- Left-pad a character list with `'0'` up to width `k`; this is the
behaviour of the Python format spec `{x:0kd}` on a nonnegative value. -/
def zfill (k : Nat) (cs : List Char) : List Char :=
  List.replicate (k - cs.length) '0' ++ cs

/-- The numeric value of a digit list read most-significant first,
starting from an accumulator: the reference semantics against which the
parsers and `natDigits` are related. -/
def dval (acc : Nat) (cs : List Char) : Nat :=
  cs.foldl (fun a c => a * 10 + digitVal c) acc

/-- Strip leading and trailing whitespace, as Python `str.strip` /
the implicit stripping of `int(...)` and `float(...)` do. -/
def trimWs (cs : List Char) : List Char :=
  ((cs.dropWhile Char.isWhitespace).reverse.dropWhile Char.isWhitespace).reverse

/-- `String` version of `trimWs`, modelling `str.strip()`. -/
def strTrim (s : String) : String := String.mk (trimWs s.data)

/-! ## Python `int(...)` on strings -/

/-- Value of a digit run that may contain single underscores between
digits (Python numeric literal rule).  `acc` is the value of the digits
already consumed.  Returns `none` on a malformed run. -/
def parseDigitsUCore : Nat → List Char → Option Nat
  | acc, [] => some acc
  | acc, c :: rest =>
    if c.isDigit then parseDigitsUCore (acc * 10 + digitVal c) rest
    else if c = '_' then
      match rest with
      | [] => none
      | d :: rest2 =>
        if d.isDigit then parseDigitsUCore (acc * 10 + digitVal d) rest2 else none
    else none

/-- A nonempty digit run (underscores allowed between digits). -/
def parseDigitsU : List Char → Option Nat
  | [] => none
  | c :: rest => if c.isDigit then parseDigitsUCore (digitVal c) rest else none

/-- Python `int(s)`: optional surrounding whitespace, optional sign,
then a digit run. -/
def pyIntParse (s : String) : Option Int :=
  match trimWs s.data with
  | '+' :: rest => (parseDigitsU rest).map Int.ofNat
  | '-' :: rest => (parseDigitsU rest).map (fun n => -(Int.ofNat n))
  | cs => (parseDigitsU cs).map Int.ofNat

/-! ## Python `float(...)` on strings (finite decimal literals) -/

/-- Consume a maximal digit run (underscores between digits allowed),
returning its value, the number of digits consumed, and the rest. -/
def takeDigitsU : List Char → Nat → Nat → Nat × Nat × List Char
  | [], acc, cnt => (acc, cnt, [])
  | c :: rest, acc, cnt =>
    if c.isDigit then takeDigitsU rest (acc * 10 + digitVal c) (cnt + 1)
    else if c = '_' then
      match rest with
      | d :: rest2 =>
        if d.isDigit then takeDigitsU rest2 (acc * 10 + digitVal d) (cnt + 1)
        else (acc, cnt, c :: rest)
      | [] => (acc, cnt, c :: rest)
    else (acc, cnt, c :: rest)

/-- A digit run that must start with a digit. -/
def runDigitsU : List Char → Option (Nat × Nat × List Char)
  | [] => none
  | c :: rest => if c.isDigit then some (takeDigitsU rest (digitVal c) 1) else none

/-- Python `float(s)` restricted to finite decimal literals:
`[sign] (digits [. digits] | . digits) [(e|E) [sign] digits]` with
surrounding whitespace stripped.  The `inf`/`nan` spellings are outside
the model.  The value is exact (rational), matching the spec statement
that no rounding is applied internally. -/
def pyFloatParse (s : String) : Option ℚ :=
  let cs := trimWs s.data
  let sgnAndRest : ℚ × List Char :=
    match cs with
    | '+' :: r => (1, r)
    | '-' :: r => (-1, r)
    | r => (1, r)
  let sgn := sgnAndRest.1
  let cs1 := sgnAndRest.2
  let mant : Option (ℚ × List Char) :=
    match cs1 with
    | '.' :: r =>
      match runDigitsU r with
      | some (fv, fc, r2) => some ((fv : ℚ) / (10 : ℚ) ^ fc, r2)
      | none => none
    | _ =>
      match runDigitsU cs1 with
      | some (iv, _, r1) =>
        match r1 with
        | '.' :: r2 =>
          match r2 with
          | d :: _ =>
            if d.isDigit then
              match runDigitsU r2 with
              | some (fv, fc, r3) => some ((iv : ℚ) + (fv : ℚ) / (10 : ℚ) ^ fc, r3)
              | none => none
            else some ((iv : ℚ), r2)
          | [] => some ((iv : ℚ), [])
        | _ => some ((iv : ℚ), r1)
      | none => none
  match mant with
  | none => none
  | some (m, rest) =>
    match rest with
    | [] => some (sgn * m)
    | e :: r4 =>
      if e = 'e' ∨ e = 'E' then
        let esgnAndRest : Bool × List Char :=
          match r4 with
          | '+' :: r => (false, r)
          | '-' :: r => (true, r)
          | r => (false, r)
        match runDigitsU esgnAndRest.2 with
        | some (ev, _, r6) =>
          if r6 = [] then
            some (sgn * (if esgnAndRest.1 then m / (10 : ℚ) ^ ev else m * (10 : ℚ) ^ ev))
          else none
        | none => none
      else none

/-! ## Calendar dates -/

/-- A calendar date (no time-of-day), as stored in the `date` column. -/
structure Date where
  year : Nat
  month : Nat
  day : Nat
deriving DecidableEq, Repr

/-- Gregorian leap-year rule. -/
def isLeap (y : Nat) : Bool := (y % 4 = 0 ∧ y % 100 ≠ 0) ∨ y % 400 = 0

/-- Days in a month. -/
def daysInMonth (y m : Nat) : Nat :=
  if m = 2 then (if isLeap y then 29 else 28)
  else if m = 4 ∨ m = 6 ∨ m = 9 ∨ m = 11 then 30
  else 31

/-- A real calendar date accepted by `datetime` (years 1 to 9999). -/
def Date.valid (d : Date) : Bool :=
  decide (1 ≤ d.year ∧ d.year ≤ 9999 ∧ 1 ≤ d.month ∧ d.month ≤ 12 ∧
          1 ≤ d.day ∧ d.day ≤ daysInMonth d.year d.month)

/-- Order key: for 4-digit years this is exactly the lexicographic order
of the canonical `YYYY-MM-DD` strings that SQLite `date()` compares. -/
def Date.key (d : Date) : Nat := d.year * 10000 + d.month * 100 + d.day

/-- `datetime.fromisoformat` on a date-only string: exactly the shape
`YYYY-MM-DD` with a valid calendar date behind it. -/
def parseDate (s : String) : Option Date :=
  match s.data with
  | [y1, y2, y3, y4, s1, m1, m2, s2, d1, d2] =>
    if y1.isDigit ∧ y2.isDigit ∧ y3.isDigit ∧ y4.isDigit ∧ s1 = '-' ∧
       m1.isDigit ∧ m2.isDigit ∧ s2 = '-' ∧ d1.isDigit ∧ d2.isDigit then
      let d : Date :=
        ⟨((digitVal y1 * 10 + digitVal y2) * 10 + digitVal y3) * 10 + digitVal y4,
         digitVal m1 * 10 + digitVal m2,
         digitVal d1 * 10 + digitVal d2⟩
      if d.valid then some d else none
    else none
  | _ => none

/-- `strftime("%Y-%m-%d")`: canonical zero-padded rendering. -/
def dateToString (d : Date) : String :=
  String.mk (zfill 4 (natDigits d.year) ++ '-' ::
             (zfill 2 (natDigits d.month) ++ '-' :: zfill 2 (natDigits d.day)))

/-! ## Profit formulas (src/main.py lines 33-40) -/

/-- `tot_livraison(weight, delivery_price) = (weight * 50) + delivery_price`. -/
def tot_livraison (weight delivery_price : ℚ) : ℚ :=
  (weight * 50) + delivery_price

/-- `p_fayda(selling_price, tot_livraison, purchase_price)`. -/
def p_fayda (selling_price tot_livraison purchase_price : ℚ) : ℚ :=
  (selling_price - tot_livraison) - purchase_price

/-- `fayda_safia(pf) = pf - 500`. -/
def fayda_safia (pf : ℚ) : ℚ := pf - 500

/-! ## Data model (the four tables of init_db; SQLite NULL = `Option`) -/

/-- A `Clients` row.  `name`, `phone`, `address`, `city` are irrelevant
to the claims except `name` (searched by `refresh_sales`). -/
structure Client where
  client_id : Nat
  name : String
  total_spent : ℚ
  total_orders : Nat
deriving DecidableEq, Repr

/-- A `Products` row.  `purchase_price` is `NOT NULL`; `weight`,
`default_delivery_price` and `selling_price` are nullable. -/
structure Product where
  product_id : Nat
  name : String
  purchase_price : ℚ
  weight : Option ℚ
  default_delivery_price : Option ℚ
  selling_price : Option ℚ
  stock_qty : Int
deriving DecidableEq, Repr

/-- A `Sales` row.  `date` is the stored text column. -/
structure Sale where
  sale_id : Nat
  invoice_no : String
  client_id : Nat
  product_id : Nat
  quantity : Int
  purchase_price : ℚ
  selling_price : ℚ
  weight : ℚ
  delivery_price : ℚ
  tot_livraison : ℚ
  p_fayda : ℚ
  fayda_safia : ℚ
  payment_method : String
  status : String
  paid : Nat
  date : String
deriving DecidableEq, Repr

/-- The ledger: the three tables relevant to the claims, in insertion
order (AUTOINCREMENT keys increase along each list), plus the next
`sale_id` the storage will assign. -/
structure State where
  clients : List Client
  products : List Product
  sales : List Sale
  nextSaleId : Nat
deriving DecidableEq, Repr

/-- Error taxonomy of the spec (section 7). -/
inductive Err where
  | notFound : String → Err
  | validation : String → Err
deriving DecidableEq, Repr

/-! ## Invoice sequencer (generate_invoice_no, lines 66-81) -/

/-- ASCII lowercasing of a character list; SQLite `LIKE` is
case-insensitive exactly on ASCII letters, as is `Char.toLower`. -/
def lcLower (cs : List Char) : List Char := cs.map Char.toLower

/-- The `LIKE` pattern `f'DZAIR-{year}-%'` without its trailing `%`. -/
def likePattern (y : Nat) : List Char :=
  "DZAIR-".data ++ natDigits y ++ ['-']

/-- `invoice_no LIKE 'DZAIR-{year}-%'`: a case-insensitive prefix test,
since the pattern contains no further wildcards. -/
def invMatchesYear (inv : String) (y : Nat) : Bool :=
  (lcLower (likePattern y)).isPrefixOf (lcLower inv.data)

/-- `SELECT invoice_no FROM Sales WHERE invoice_no LIKE ? ORDER BY
sale_id DESC LIMIT 1`: the most recently inserted matching sale. -/
def lastMatch (sales : List Sale) (y : Nat) : Option Sale :=
  (sales.filter (fun s => invMatchesYear s.invoice_no y)).getLast?

/-- `last.split('-')[-1]`: the suffix after the last dash (the whole
string when no dash occurs). -/
def lastSegStr (s : String) : String :=
  String.mk ((s.data.reverse.takeWhile (fun c => c ≠ '-')).reverse)

/-- The sequence number chosen by `generate_invoice_no`: 1 when no sale
matches the year pattern; otherwise `int(last.split('-')[-1]) + 1`,
falling back to 1 when that parse raises.  The parsed value is never
negative because the segment after the last dash cannot contain a minus
sign. -/
def nextSeq (sales : List Sale) (y : Nat) : Nat :=
  match lastMatch sales y with
  | none => 1
  | some s =>
    match pyIntParse (lastSegStr s.invoice_no) with
    | some i => i.toNat + 1
    | none => 1

/-- `f"DZAIR-{year}-{seq:03d}"`. -/
def mkInvoice (y n : Nat) : String :=
  String.mk ("DZAIR-".data ++ natDigits y ++ '-' :: zfill 3 (natDigits n))

/-- The invoice the sequencer produces for a given year. -/
def invoiceFor (sales : List Sale) (y : Nat) : String :=
  mkInvoice y (nextSeq sales y)

/-- `generate_invoice_no(conn, date_str)`: parse the reference date
(`datetime.fromisoformat` raises on an invalid string, modelled as
`none`), then format the next sequence number for its year. -/
def generate_invoice_no (sales : List Sale) (date_str : String) : Option String :=
  (parseDate date_str).map (fun d => invoiceFor sales d.year)

/-! ## add_sale (lines 293-320) -/

/-- The form inputs of `add_sale`: selected client/product ids (the
combobox text must name an existing row), the raw quantity and delivery
entry strings, payment, status, and the current date. -/
structure SaleInput where
  clientId : Nat
  productId : Nat
  qtyStr : String
  deliveryStr : String
  payment : String
  status : String
  today : Date
deriving DecidableEq, Repr

/-- `int(self.sale_qty.get() or 1)`: the empty string is falsy, so it
defaults to the integer 1; otherwise Python `int` parsing. -/
def parseQty (s : String) : Option Int :=
  if s = "" then some 1 else pyIntParse s

/-- `float(self.sale_delivery.get()) if self.sale_delivery.get().strip()
else None`: `some none` is "no override", `none` is a parse failure. -/
def parseDeliveryOpt (s : String) : Option (Option ℚ) :=
  if strTrim s = "" then some none else (pyFloatParse s).map some

/-- The `Sales` row inserted by `add_sale` (line 317), with the
product snapshot (`or 0` on the nullable columns), the derived fields,
the generated invoice, and `paid = 1 iff status == 'Delivered'`. -/
def newSale (st : State) (inp : SaleInput) (prod : Product) (qty : Int)
    (dopt : Option ℚ) : Sale :=
  let purchase_price := prod.purchase_price
  let weight := prod.weight.getD 0
  let selling_price := prod.selling_price.getD 0
  let delivery_price := dopt.getD (prod.default_delivery_price.getD 0)
  let tl := tot_livraison weight delivery_price
  let pf := p_fayda selling_price tl purchase_price
  let status := if inp.status = "" then "Pending" else inp.status
  { sale_id := st.nextSaleId
    invoice_no := invoiceFor st.sales inp.today.year
    client_id := inp.clientId
    product_id := inp.productId
    quantity := qty
    purchase_price := purchase_price
    selling_price := selling_price
    weight := weight
    delivery_price := delivery_price
    tot_livraison := tl
    p_fayda := pf
    fayda_safia := fayda_safia pf
    payment_method := if inp.payment = "" then "Cash" else inp.payment
    status := status
    paid := if status = "Delivered" then 1 else 0
    date := dateToString inp.today }

/-- The state after the three writes of `add_sale` (lines 317-319):
insert the sale, `UPDATE Clients SET total_spent = total_spent + ?,
total_orders = total_orders + 1`, `UPDATE Products SET stock_qty =
stock_qty - ?`. -/
def newState (st : State) (inp : SaleInput) (prod : Product) (qty : Int)
    (dopt : Option ℚ) : State :=
  let sale := newSale st inp prod qty dopt
  { clients := st.clients.map (fun c =>
      if c.client_id == inp.clientId then
        { c with total_spent := c.total_spent + sale.selling_price * (qty : ℚ)
                 total_orders := c.total_orders + 1 }
      else c)
    products := st.products.map (fun p =>
      if p.product_id == inp.productId then
        { p with stock_qty := p.stock_qty - qty }
      else p)
    sales := st.sales ++ [sale]
    nextSaleId := st.nextSaleId + 1 }

/-- `add_sale`: validation in source order (client/product selection
must name existing rows, quantity must parse as an integer, a nonempty
delivery entry must parse as a float), then the snapshot, the derived
fields, the invoice, and the three row writes committed together. -/
def add_sale (st : State) (inp : SaleInput) : Except Err (State × Sale) :=
  match st.clients.find? (fun c => c.client_id == inp.clientId) with
  | none => .error (.notFound "client")
  | some _ =>
    match st.products.find? (fun p => p.product_id == inp.productId) with
    | none => .error (.notFound "product")
    | some prod =>
      match parseQty inp.qtyStr with
      | none => .error (.validation "Quantity must be integer")
      | some qty =>
        match parseDeliveryOpt inp.deliveryStr with
        | none => .error (.validation "Delivery must be numeric")
        | some dopt => .ok (newState st inp prod qty dopt, newSale st inp prod qty dopt)

/-- The ledger after an `add_sale` attempt: on a validation or lookup
failure nothing has been written (all checks precede the first
`cur.execute` that mutates a table). -/
def stateAfter (st : State) (inp : SaleInput) : State :=
  match add_sale st inp with
  | .ok (st', _) => st'
  | .error _ => st

/-! ## refresh_sales (lines 251-291) and refresh_dashboard (lines 341-346) -/

/-- SQLite `LIKE`: `%` matches any sequence, `_` any single character,
letters compare case-insensitively (ASCII). -/
def likeMatch : List Char → List Char → Bool
  | [], t => t.isEmpty
  | '%' :: p, [] => likeMatch p []
  | '%' :: p, c :: t => likeMatch p (c :: t) || likeMatch ('%' :: p) t
  | '_' :: _, [] => false
  | '_' :: p, _ :: t => likeMatch p t
  | _ :: _, [] => false
  | a :: p, c :: t => (a.toLower == c.toLower) && likeMatch p t
termination_by p t => (p.length, t.length)

/-- The search clause `(C.name LIKE ? OR P.name LIKE ? OR S.invoice_no
LIKE ? OR S.status LIKE ?)` with parameter `f"%{s}%"`.  The names come
from the `LEFT JOIN`; a missing client or product gives SQL NULL, whose
`LIKE` is not true. -/
def searchClause (st : State) (s : List Char) (sale : Sale) : Bool :=
  let pat := '%' :: (s ++ ['%'])
  (match st.clients.find? (fun c => c.client_id == sale.client_id) with
   | some c => likeMatch pat c.name.data
   | none => false) ||
  (match st.products.find? (fun p => p.product_id == sale.product_id) with
   | some p => likeMatch pat p.name.data
   | none => false) ||
  likeMatch pat sale.invoice_no.data ||
  likeMatch pat sale.status.data

/-- `date(S.date) >= date(?)` for a validated lower bound: an
unparseable stored date gives SQL NULL and the row is filtered out. -/
def dateOkFrom (b : Option Date) (sale : Sale) : Bool :=
  match b with
  | none => true
  | some fd =>
    match parseDate sale.date with
    | some sd => decide (fd.key ≤ sd.key)
    | none => false

/-- `date(S.date) <= date(?)` for a validated upper bound. -/
def dateOkTo (b : Option Date) (sale : Sale) : Bool :=
  match b with
  | none => true
  | some td =>
    match parseDate sale.date with
    | some sd => decide (sd.key ≤ td.key)
    | none => false

/-- The toolbar filter inputs. -/
structure Filter where
  search : String
  dateFrom : String
  dateTo : String
deriving DecidableEq, Repr

/-- `refresh_sales`: validate the stripped date bounds in order (each
failure reports which bound is malformed and returns no rows), then
`SELECT ... WHERE 1=1 AND ... ORDER BY S.sale_id DESC`: all clauses
conjoined, most recently inserted first. -/
def refresh_sales (st : State) (f : Filter) : Except Err (List Sale) :=
  let s := strTrim f.search
  let df := strTrim f.dateFrom
  let dt := strTrim f.dateTo
  match (if df = "" then some none else (parseDate df).map some : Option (Option Date)) with
  | none => .error (.validation "From date must be YYYY-MM-DD")
  | some fd =>
    match (if dt = "" then some none else (parseDate dt).map some : Option (Option Date)) with
    | none => .error (.validation "To date must be YYYY-MM-DD")
    | some td =>
      .ok ((st.sales.filter (fun sale =>
        (if s = "" then true else searchClause st s.data sale) &&
        dateOkFrom fd sale && dateOkTo td sale)).reverse)

/-- `refresh_dashboard`: `COUNT(*)`, `SUM(p_fayda)`, `SUM(tot_livraison)`
over all sales; the SQL `SUM` of an empty set is NULL, which the
source maps to 0 with `or 0`. -/
def refresh_dashboard (st : State) : Nat × ℚ × ℚ :=
  (st.sales.length,
   (st.sales.map (fun s => s.p_fayda)).sum,
   (st.sales.map (fun s => s.tot_livraison)).sum)

/-- The invoice format the claim asserts: prefix, the year rendered in
exactly four digits, a dash, then a zero-padded (at least 3 digits)
numeric sequence segment. -/
def claimedInvoiceForm (s : String) (year : Nat) : Prop :=
  ∃ nnn : List Char, (∀ c ∈ nnn, c.isDigit) ∧ 3 ≤ nnn.length ∧
    s.data = "DZAIR-".data ++ zfill 4 (natDigits year) ++ '-' :: nnn

/-- Decidable equality for `Except` results, so that concrete runs of
the operations can be checked by `decide`. -/
instance {ε α : Type} [DecidableEq ε] [DecidableEq α] : DecidableEq (Except ε α) := fun a b =>
  match a, b with
  | .ok x, .ok y =>
    if h : x = y then isTrue (congrArg Except.ok h)
    else isFalse (fun he => h (Except.ok.inj he))
  | .error x, .error y =>
    if h : x = y then isTrue (congrArg Except.error h)
    else isFalse (fun he => h (Except.error.inj he))
  | .ok _, .error _ => isFalse (fun he => Except.noConfusion he)
  | .error _, .ok _ => isFalse (fun he => Except.noConfusion he)

/-! ## Concrete ledgers and inputs used by witnesses and counterexamples -/

/-- A client with empty accumulators. -/
def demoClient : Client :=
  { client_id := 1, name := "Ali", total_spent := 0, total_orders := 0 }

/-- The product of the spec scenario in section 8. -/
def demoProduct : Product :=
  { product_id := 1, name := "Lamp", purchase_price := 1000, weight := some 2,
    default_delivery_price := some 200, selling_price := some 3000, stock_qty := 0 }

/-- A one-client one-product ledger with no sales. -/
def demoState : State :=
  { clients := [demoClient], products := [demoProduct], sales := [], nextSaleId := 1 }

/-- The spec scenario input: quantity 1, no delivery override, status
Delivered, on 2024-01-15. -/
def demoInput : SaleInput :=
  { clientId := 1, productId := 1, qtyStr := "1", deliveryStr := "",
    payment := "", status := "Delivered", today := ⟨2024, 1, 15⟩ }

/-- The sale row `add_sale demoState demoInput` persists. -/
def demoSale : Sale :=
  { sale_id := 1, invoice_no := "DZAIR-2024-001", client_id := 1, product_id := 1,
    quantity := 1, purchase_price := 1000, selling_price := 3000, weight := 2,
    delivery_price := 200, tot_livraison := 300, p_fayda := 1700, fayda_safia := 1200,
    payment_method := "Cash", status := "Delivered", paid := 1, date := "2024-01-15" }

/-- The ledger after `add_sale demoState demoInput`: the client has
spent 3000 over 1 order and the product stock went negative (0 - 1). -/
def demoState1 : State :=
  { clients := [{ client_id := 1, name := "Ali", total_spent := 3000, total_orders := 1 }],
    products := [{ demoProduct with stock_qty := -1 }],
    sales := [demoSale], nextSaleId := 2 }

/-- Same input on the next day; its sale gets the next sequence number. -/
def demoInput2 : SaleInput :=
  { demoInput with today := ⟨2024, 1, 16⟩ }

/-- The second sale row. -/
def demoSale2 : Sale :=
  { demoSale with sale_id := 2, invoice_no := "DZAIR-2024-002", date := "2024-01-16" }

/-- The ledger after the second `add_sale`. -/
def demoState2 : State :=
  { clients := [{ client_id := 1, name := "Ali", total_spent := 6000, total_orders := 2 }],
    products := [{ demoProduct with stock_qty := -2 }],
    sales := [demoSale, demoSale2], nextSaleId := 3 }

/-- A product whose nullable columns are all NULL. -/
def nullProduct : Product :=
  { product_id := 2, name := "Mystery", purchase_price := 100, weight := none,
    default_delivery_price := none, selling_price := none, stock_qty := 5 }

/-- A ledger carrying `nullProduct`. -/
def nullState : State :=
  { clients := [demoClient], products := [nullProduct], sales := [], nextSaleId := 1 }

/-- A sale of `nullProduct` with no delivery override. -/
def nullInput : SaleInput :=
  { clientId := 1, productId := 2, qtyStr := "3", deliveryStr := "",
    payment := "Cash", status := "Pending", today := ⟨2024, 6, 1⟩ }

/-- Quantity `"0"`: not a positive integer, yet parsed by `int`. -/
def zeroQtyInput : SaleInput := { demoInput with qtyStr := "0" }

/-- Negative delivery override `"-5"`: numeric but below zero. -/
def negDeliveryInput : SaleInput := { demoInput with deliveryStr := "-5" }

/-- Unparseable quantity. -/
def badQtyInput : SaleInput := { demoInput with qtyStr := "abc" }

/-- Unparseable delivery entry. -/
def badDeliveryInput : SaleInput := { demoInput with deliveryStr := "1.2.3" }

/-- An input naming a client id that no row carries. -/
def ghostClientInput : SaleInput := { demoInput with clientId := 77 }

/-- An input naming a product id that no row carries. -/
def ghostProductInput : SaleInput := { demoInput with productId := 77 }

/-- A ledger whose single sale already carries invoice DZAIR-2024-005. -/
def seededState : State :=
  { clients := [demoClient], products := [demoProduct],
    sales := [{ demoSale with invoice_no := "DZAIR-2024-005", date := "2024-02-01" }],
    nextSaleId := 2 }

/-- An empty quantity entry. -/
def emptyQtyInput : SaleInput := { demoInput with qtyStr := "" }

/-- The product row after the first demo sale (stock went to -1). -/
def demoProductAfter : Product := { demoProduct with stock_qty := -1 }

/-- First sale for the date-range filter (2024-01-05). -/
def rangeSale1 : Sale :=
  { demoSale with sale_id := 1, invoice_no := "DZAIR-2024-001", date := "2024-01-05" }

/-- Second sale for the date-range filter (2024-01-31). -/
def rangeSale2 : Sale :=
  { demoSale with sale_id := 2, invoice_no := "DZAIR-2024-002", date := "2024-01-31" }

/-- Third sale for the date-range filter (2024-02-02). -/
def rangeSale3 : Sale :=
  { demoSale with sale_id := 3, invoice_no := "DZAIR-2024-003", date := "2024-02-02" }

/-- Three sales dated 2024-01-05, 2024-01-31 and 2024-02-02, for the
date-range filter. -/
def rangeState : State :=
  { clients := [demoClient], products := [demoProduct],
    sales := [rangeSale1, rangeSale2, rangeSale3],
    nextSaleId := 4 }

/-- January 2024, inclusive on both ends. -/
def janFilter : Filter := { search := "", dateFrom := "2024-01-01", dateTo := "2024-01-31" }

/-- A malformed from-bound. -/
def badFromFilter : Filter := { search := "", dateFrom := "2024-13-01", dateTo := "" }

/-- A malformed to-bound. -/
def badToFilter : Filter := { search := "", dateFrom := "2024-01-01", dateTo := "31/01/2024" }

/-- The filter with everything omitted. -/
def emptyFilter : Filter := { search := "", dateFrom := "", dateTo := "" }

/-! ## Lemmas: decimal digit strings -/

theorem natDigitsAux_zero (f : Nat) : natDigitsAux f 0 = [] := by
  cases f <;> rfl

theorem natDigitsAux_fuel (f1 : Nat) : ∀ f2 n, n ≤ f1 → n ≤ f2 →
    natDigitsAux f1 n = natDigitsAux f2 n := by
  induction f1 with
  | zero =>
    intro f2 n h1 _
    have : n = 0 := Nat.le_zero.mp h1
    subst this
    rw [natDigitsAux_zero, natDigitsAux_zero]
  | succ g ih =>
    intro f2 n h1 h2
    cases n with
    | zero => rw [natDigitsAux_zero, natDigitsAux_zero]
    | succ m =>
      cases f2 with
      | zero => omega
      | succ h =>
        show Nat.digitChar ((m + 1) % 10) :: natDigitsAux g ((m + 1) / 10) =
             Nat.digitChar ((m + 1) % 10) :: natDigitsAux h ((m + 1) / 10)
        have hd : (m + 1) / 10 ≤ g := by omega
        have hd2 : (m + 1) / 10 ≤ h := by omega
        rw [ih _ _ hd hd2]

theorem natDigits_of_lt10 (n : Nat) (h1 : 1 ≤ n) (h2 : n < 10) :
    natDigits n = [Nat.digitChar n] := by
  unfold natDigits
  rw [if_neg (by omega)]
  cases n with
  | zero => omega
  | succ m =>
    show (Nat.digitChar ((m + 1) % 10) :: natDigitsAux m ((m + 1) / 10)).reverse = _
    have h10 : (m + 1) / 10 = 0 := by omega
    have hm : (m + 1) % 10 = m + 1 := by omega
    rw [h10, natDigitsAux_zero, hm, List.reverse_singleton]

theorem natDigits_of_ge10 (n : Nat) (h : 10 ≤ n) :
    natDigits n = natDigits (n / 10) ++ [Nat.digitChar (n % 10)] := by
  unfold natDigits
  rw [if_neg (by omega), if_neg (by omega)]
  cases n with
  | zero => omega
  | succ m =>
    show (Nat.digitChar ((m + 1) % 10) :: natDigitsAux m ((m + 1) / 10)).reverse = _
    rw [List.reverse_cons]
    congr 1
    have hle : (m + 1) / 10 ≤ m := by omega
    rw [natDigitsAux_fuel m ((m + 1) / 10) ((m + 1) / 10) hle (Nat.le_refl _)]

theorem digitChar_isDigit (m : Nat) (h : m < 10) : (Nat.digitChar m).isDigit = true := by
  interval_cases m <;> decide

theorem digitVal_digitChar (m : Nat) (h : m < 10) : digitVal (Nat.digitChar m) = m := by
  interval_cases m <;> decide

theorem natDigits_all_digit (n : Nat) : ∀ c ∈ natDigits n, c.isDigit = true := by
  induction n using Nat.strong_induction_on with
  | _ n ih =>
    by_cases h0 : n = 0
    · subst h0; intro c hc; simp [natDigits] at hc; subst hc; decide
    · by_cases h10 : n < 10
      · rw [natDigits_of_lt10 n (by omega) h10]
        intro c hc
        simp at hc
        subst hc
        exact digitChar_isDigit n h10
      · rw [natDigits_of_ge10 n (by omega)]
        intro c hc
        rcases List.mem_append.mp hc with h | h
        · exact ih (n / 10) (by omega) c h
        · simp at h
          subst h
          exact digitChar_isDigit _ (Nat.mod_lt _ (by omega))

theorem natDigits_ne_nil (n : Nat) : natDigits n ≠ [] := by
  by_cases h0 : n = 0
  · subst h0; simp [natDigits]
  · by_cases h10 : n < 10
    · rw [natDigits_of_lt10 n (by omega) h10]; simp
    · rw [natDigits_of_ge10 n (by omega)]; simp

theorem dval_append (acc : Nat) (l1 l2 : List Char) :
    dval acc (l1 ++ l2) = dval (dval acc l1) l2 := by
  simp [dval, List.foldl_append]

theorem dval_natDigits (n : Nat) : dval 0 (natDigits n) = n := by
  induction n using Nat.strong_induction_on with
  | _ n ih =>
    by_cases h0 : n = 0
    · subst h0; decide
    · by_cases h10 : n < 10
      · rw [natDigits_of_lt10 n (by omega) h10]
        show 0 * 10 + digitVal (Nat.digitChar n) = n
        rw [digitVal_digitChar n h10]
        omega
      · rw [natDigits_of_ge10 n (by omega), dval_append, ih (n / 10) (by omega)]
        show (n / 10) * 10 + digitVal (Nat.digitChar (n % 10)) = n
        rw [digitVal_digitChar _ (Nat.mod_lt _ (by omega))]
        omega

theorem natDigits_inj (a b : Nat) (h : natDigits a = natDigits b) : a = b := by
  have := dval_natDigits a
  rw [h, dval_natDigits] at this
  omega

theorem natDigits_len4 (y : Nat) (h1 : 1000 ≤ y) (h2 : y ≤ 9999) :
    (natDigits y).length = 4 := by
  rw [natDigits_of_ge10 y (by omega),
      natDigits_of_ge10 (y / 10) (by omega),
      natDigits_of_ge10 (y / 10 / 10) (by omega),
      natDigits_of_lt10 (y / 10 / 10 / 10) (by omega) (by omega)]
  simp

/-! ## Lemmas: characters -/

theorem isDigit_toNat_bounds (c : Char) (h : c.isDigit = true) :
    48 ≤ c.toNat ∧ c.toNat ≤ 57 := by
  simp [Char.isDigit] at h
  obtain ⟨h1, h2⟩ := h
  constructor
  · exact h1
  · exact h2

theorem toLower_of_isDigit (c : Char) (h : c.isDigit = true) : c.toLower = c := by
  obtain ⟨h1, h2⟩ := isDigit_toNat_bounds c h
  unfold Char.toLower
  rw [if_neg]
  simp only [Bool.and_eq_true, decide_eq_true_eq, not_and]
  intro h65
  omega

theorem ne_of_isDigit_of_toNat_ne (c d : Char) (h : c.isDigit = true)
    (hd : d.toNat < 48 ∨ 57 < d.toNat) : c ≠ d := by
  obtain ⟨h1, h2⟩ := isDigit_toNat_bounds c h
  intro he
  subst he
  omega

theorem isDigit_ne_dash (c : Char) (h : c.isDigit = true) : c ≠ '-' :=
  ne_of_isDigit_of_toNat_ne c '-' h (by left; decide)

theorem isDigit_ne_plus (c : Char) (h : c.isDigit = true) : c ≠ '+' :=
  ne_of_isDigit_of_toNat_ne c '+' h (by left; decide)

theorem isDigit_not_ws (c : Char) (h : c.isDigit = true) : c.isWhitespace = false := by
  obtain ⟨h1, h2⟩ := isDigit_toNat_bounds c h
  unfold Char.isWhitespace
  have e32 : (c = ' ') = False := by
    simp only [eq_iff_iff, iff_false]
    intro he; subst he; exact absurd h1 (by decide)
  have e9 : (c = '\t') = False := by
    simp only [eq_iff_iff, iff_false]
    intro he; subst he; exact absurd h1 (by decide)
  have e13 : (c = '\r') = False := by
    simp only [eq_iff_iff, iff_false]
    intro he; subst he; exact absurd h1 (by decide)
  have e10 : (c = '\n') = False := by
    simp only [eq_iff_iff, iff_false]
    intro he; subst he; exact absurd h1 (by decide)
  simp [e32, e9, e13, e10]

/-! ## Lemmas: digit-run parsing -/

theorem parseDigitsUCore_all_digits (cs : List Char) : ∀ acc,
    (∀ c ∈ cs, c.isDigit = true) → parseDigitsUCore acc cs = some (dval acc cs) := by
  induction cs with
  | nil => intro acc _; rfl
  | cons c rest ih =>
    intro acc h
    have hc : c.isDigit = true := h c (List.mem_cons_self c rest)
    show parseDigitsUCore acc (c :: rest) = _
    unfold parseDigitsUCore
    rw [if_pos hc]
    rw [ih _ (fun d hd => h d (List.mem_cons_of_mem c hd))]
    rfl

theorem parseDigitsU_all_digits (cs : List Char) (hne : cs ≠ [])
    (h : ∀ c ∈ cs, c.isDigit = true) : parseDigitsU cs = some (dval 0 cs) := by
  cases cs with
  | nil => exact absurd rfl hne
  | cons c rest =>
    have hc : c.isDigit = true := h c (List.mem_cons_self c rest)
    rw [show parseDigitsU (c :: rest) =
          (if c.isDigit = true then parseDigitsUCore (digitVal c) rest else none) from rfl]
    rw [if_pos hc, parseDigitsUCore_all_digits rest (digitVal c)
      (fun d hd => h d (List.mem_cons_of_mem c hd))]
    have h0 : dval 0 (c :: rest) = dval (digitVal c) rest := by
      show dval (0 * 10 + digitVal c) rest = dval (digitVal c) rest
      congr 1
      omega
    rw [h0]

theorem dval_replicate_zeros (k : Nat) : dval 0 (List.replicate k '0') = 0 := by
  induction k with
  | zero => rfl
  | succ m ih =>
    rw [List.replicate_succ]
    show dval (0 * 10 + digitVal '0') (List.replicate m '0') = 0
    have : 0 * 10 + digitVal '0' = 0 := by decide
    rw [this, ih]

theorem zfill_all_digits (k : Nat) (cs : List Char)
    (h : ∀ c ∈ cs, c.isDigit = true) : ∀ c ∈ zfill k cs, c.isDigit = true := by
  intro c hc
  rcases List.mem_append.mp hc with hm | hm
  · have : c = '0' := List.eq_of_mem_replicate hm
    subst this; decide
  · exact h c hm

theorem zfill_ne_nil (k : Nat) (cs : List Char) (h : cs ≠ []) : zfill k cs ≠ [] := by
  unfold zfill
  intro he
  rcases List.append_eq_nil.mp he with ⟨_, h2⟩
  exact h h2

theorem dropWhile_eq_self_of_all_false {p : Char → Bool} (l : List Char)
    (h : ∀ c ∈ l, p c = false) : l.dropWhile p = l := by
  cases l with
  | nil => rfl
  | cons a rest =>
    rw [List.dropWhile_cons, h a (List.mem_cons_self a rest)]
    simp

theorem trimWs_all_digits (l : List Char) (h : ∀ c ∈ l, c.isDigit = true) :
    trimWs l = l := by
  unfold trimWs
  have hws : ∀ c ∈ l, c.isWhitespace = false :=
    fun c hc => isDigit_not_ws c (h c hc)
  rw [dropWhile_eq_self_of_all_false l hws,
      dropWhile_eq_self_of_all_false l.reverse (fun c hc => hws c (List.mem_reverse.mp hc)),
      List.reverse_reverse]

theorem pyIntParse_all_digits (cs : List Char) (hne : cs ≠ [])
    (h : ∀ c ∈ cs, c.isDigit = true) :
    pyIntParse (String.mk cs) = some (Int.ofNat (dval 0 cs)) := by
  unfold pyIntParse
  have hdata : (String.mk cs).data = cs := rfl
  rw [hdata, trimWs_all_digits cs h]
  cases cs with
  | nil => exact absurd rfl hne
  | cons c rest =>
    have hc : c.isDigit = true := h c (List.mem_cons_self c rest)
    have hplus : c ≠ '+' := isDigit_ne_plus c hc
    have hminus : c ≠ '-' := isDigit_ne_dash c hc
    have hrun : parseDigitsU (c :: rest) = some (dval 0 (c :: rest)) :=
      parseDigitsU_all_digits _ (by simp) h
    split
    next heq => rw [List.cons.injEq] at heq; exact absurd heq.1 hplus
    next heq => rw [List.cons.injEq] at heq; exact absurd heq.1 hminus
    next => rw [hrun]; rfl

theorem pyIntParse_zfill3 (n : Nat) :
    pyIntParse (String.mk (zfill 3 (natDigits n))) = some (Int.ofNat n) := by
  rw [pyIntParse_all_digits _ (zfill_ne_nil 3 _ (natDigits_ne_nil n))
      (zfill_all_digits 3 _ (natDigits_all_digit n))]
  unfold zfill
  rw [dval_append, dval_replicate_zeros, dval_natDigits]

/-! ## Lemmas: invoice strings -/

theorem natDigits_ne_dash (n : Nat) : ∀ c ∈ natDigits n, c ≠ '-' :=
  fun c hc => isDigit_ne_dash c (natDigits_all_digit n c hc)

theorem dashfree_eq (A : List Char) : ∀ (B t u : List Char),
    (∀ c ∈ A, c ≠ '-') → (∀ c ∈ B, c ≠ '-') →
    A ++ '-' :: t = B ++ '-' :: u → A = B ∧ t = u := by
  induction A with
  | nil =>
    intro B t u _ hB h
    cases B with
    | nil => simpa using h
    | cons b B' =>
      simp only [List.nil_append, List.cons_append, List.cons.injEq] at h
      exact absurd h.1.symm (hB b (List.mem_cons_self b B'))
  | cons a A' ih =>
    intro B t u hA hB h
    cases B with
    | nil =>
      simp only [List.nil_append, List.cons_append, List.cons.injEq] at h
      exact absurd h.1 (hA a (List.mem_cons_self a A'))
    | cons b B' =>
      simp only [List.cons_append, List.cons.injEq] at h
      obtain ⟨hab, hrest⟩ := h
      obtain ⟨h1, h2⟩ := ih B' t u (fun c hc => hA c (List.mem_cons_of_mem a hc))
        (fun c hc => hB c (List.mem_cons_of_mem b hc)) hrest
      exact ⟨by rw [hab, h1], h2⟩

theorem lcLower_append (a b : List Char) : lcLower (a ++ b) = lcLower a ++ lcLower b :=
  List.map_append Char.toLower a b

theorem lcLower_natDigits (n : Nat) : lcLower (natDigits n) = natDigits n :=
  List.map_congr_left (fun c hc => toLower_of_isDigit c (natDigits_all_digit n c hc)) |>.trans
    (List.map_id _)

theorem mkInvoice_data (y n : Nat) :
    (mkInvoice y n).data = "DZAIR-".data ++ (natDigits y ++ '-' :: zfill 3 (natDigits n)) := by
  show "DZAIR-".data ++ (natDigits y ++ '-' :: zfill 3 (natDigits n)) = _
  rfl

theorem invMatchesYear_mkInvoice (y y' n : Nat) :
    invMatchesYear (mkInvoice y' n) y = true ↔ y = y' := by
  unfold invMatchesYear likePattern
  rw [List.isPrefixOf_iff_prefix, mkInvoice_data]
  simp only [lcLower_append]
  have hdz : lcLower "DZAIR-".data = "dzair-".data := by decide
  have hdash : lcLower ['-'] = ['-'] := rfl
  have hlow2 : lcLower ('-' :: zfill 3 (natDigits n)) = '-' :: lcLower (zfill 3 (natDigits n)) := rfl
  rw [hdz, hdash, hlow2, lcLower_natDigits, lcLower_natDigits, List.append_assoc,
      List.prefix_append_right_inj]
  constructor
  · intro hpre
    obtain ⟨t, ht⟩ := hpre
    rw [List.append_assoc, List.singleton_append] at ht
    have := dashfree_eq (natDigits y) (natDigits y') t (lcLower (zfill 3 (natDigits n)))
      (natDigits_ne_dash y) (natDigits_ne_dash y') ht
    exact natDigits_inj y y' this.1
  · intro hyy
    subst hyy
    refine ⟨lcLower (zfill 3 (natDigits n)), ?_⟩
    simp [List.append_assoc]

theorem takeWhile_append_cons {p : Char → Bool} (l1 : List Char) (b : Char) (l2 : List Char)
    (h1 : ∀ a ∈ l1, p a = true) (hb : p b = false) :
    (l1 ++ b :: l2).takeWhile p = l1 := by
  induction l1 with
  | nil => simp [List.takeWhile_cons, hb]
  | cons a rest ih =>
    rw [List.cons_append, List.takeWhile_cons, h1 a (List.mem_cons_self a rest)]
    rw [ih (fun c hc => h1 c (List.mem_cons_of_mem a hc))]
    simp

theorem lastSegStr_mkInvoice (y n : Nat) :
    lastSegStr (mkInvoice y n) = String.mk (zfill 3 (natDigits n)) := by
  unfold lastSegStr
  rw [mkInvoice_data]
  have hrev : ("DZAIR-".data ++ (natDigits y ++ '-' :: zfill 3 (natDigits n))).reverse =
      (zfill 3 (natDigits n)).reverse ++ '-' :: ((natDigits y).reverse ++ "DZAIR-".data.reverse) := by
    simp [List.reverse_append, List.reverse_cons, List.append_assoc]
  rw [hrev]
  rw [takeWhile_append_cons (p := fun c => decide (c ≠ '-')) _ '-' _
    (fun a ha => by
      have : a ∈ zfill 3 (natDigits n) := List.mem_reverse.mp ha
      have hd : a.isDigit = true := zfill_all_digits 3 _ (natDigits_all_digit n) a this
      simp [isDigit_ne_dash a hd])
    (by decide)]
  rw [List.reverse_reverse]

theorem nextSeq_concat_same (sales : List Sale) (s : Sale) (y m : Nat)
    (hinv : s.invoice_no = mkInvoice y m) :
    nextSeq (sales ++ [s]) y = m + 1 := by
  unfold nextSeq lastMatch
  rw [List.filter_append]
  have hmatch : invMatchesYear s.invoice_no y = true := by
    rw [hinv]
    exact (invMatchesYear_mkInvoice y y m).mpr rfl
  have hfs : List.filter (fun s => invMatchesYear s.invoice_no y) [s] = [s] := by
    simp [List.filter, hmatch]
  rw [hfs, List.getLast?_concat]
  show (match pyIntParse (lastSegStr s.invoice_no) with
        | some i => i.toNat + 1
        | none => 1) = m + 1
  rw [hinv, lastSegStr_mkInvoice, pyIntParse_zfill3]
  simp

theorem nextSeq_concat_other (sales : List Sale) (s : Sale) (y y' m : Nat)
    (hinv : s.invoice_no = mkInvoice y' m) (hne : y' ≠ y) :
    nextSeq (sales ++ [s]) y = nextSeq sales y := by
  unfold nextSeq lastMatch
  rw [List.filter_append]
  have hmatch : invMatchesYear s.invoice_no y = false := by
    rw [hinv]
    rw [← Bool.not_eq_true]
    intro hcon
    exact hne ((invMatchesYear_mkInvoice y y' m).mp hcon).symm
  have hfs : List.filter (fun s => invMatchesYear s.invoice_no y) [s] = [] := by
    simp [List.filter, hmatch]
  rw [hfs, List.append_nil]

/-! ## Lemmas: add_sale characterization -/

theorem add_sale_eq_ok (st : State) (inp : SaleInput) (c : Client) (p : Product)
    (q : Int) (dopt : Option ℚ)
    (hc : st.clients.find? (fun x => x.client_id == inp.clientId) = some c)
    (hp : st.products.find? (fun x => x.product_id == inp.productId) = some p)
    (hq : parseQty inp.qtyStr = some q)
    (hd : parseDeliveryOpt inp.deliveryStr = some dopt) :
    add_sale st inp = .ok (newState st inp p q dopt, newSale st inp p q dopt) := by
  unfold add_sale
  rw [hc, hp, hq, hd]

theorem add_sale_ok_inv (st : State) (inp : SaleInput) (st' : State) (sale : Sale)
    (h : add_sale st inp = .ok (st', sale)) :
    ∃ c p q dopt,
      st.clients.find? (fun x => x.client_id == inp.clientId) = some c ∧
      st.products.find? (fun x => x.product_id == inp.productId) = some p ∧
      parseQty inp.qtyStr = some q ∧
      parseDeliveryOpt inp.deliveryStr = some dopt ∧
      st' = newState st inp p q dopt ∧ sale = newSale st inp p q dopt := by
  unfold add_sale at h
  split at h
  · exact absurd h (by simp)
  next c hc =>
    split at h
    · exact absurd h (by simp)
    next p hp =>
      split at h
      · exact absurd h (by simp)
      next q hq =>
        split at h
        · exact absurd h (by simp)
        next dopt hd =>
          rw [Except.ok.injEq, Prod.mk.injEq] at h
          exact ⟨c, p, q, dopt, hc, hp, hq, hd, h.1.symm, h.2.symm⟩

theorem add_sale_error_of_no_client (st : State) (inp : SaleInput)
    (hc : st.clients.find? (fun x => x.client_id == inp.clientId) = none) :
    add_sale st inp = .error (.notFound "client") := by
  unfold add_sale
  rw [hc]

theorem add_sale_error_of_no_product (st : State) (inp : SaleInput) (c : Client)
    (hc : st.clients.find? (fun x => x.client_id == inp.clientId) = some c)
    (hp : st.products.find? (fun x => x.product_id == inp.productId) = none) :
    add_sale st inp = .error (.notFound "product") := by
  unfold add_sale
  rw [hc, hp]

theorem stateAfter_of_error (st : State) (inp : SaleInput) (e : Err)
    (h : add_sale st inp = .error e) : stateAfter st inp = st := by
  unfold stateAfter
  rw [h]

/-! ## Claim C2: the formula engine -/

/-- C2: for all numeric inputs, `tot_livraison(w,d) = w*50 + d`,
`p_fayda(S,L,P) = (S - L) - P`, `fayda_safia(pf) = pf - 500`; negative
results are returned unchanged (no clamping, no rounding, witnessed by
an explicitly negative instance), and on purchase 1000, weight 2,
delivery 200, selling 3000 they yield 300, 1700 and 1200. -/
theorem c2_formula_engine (w d S L P pf : ℚ) :
    tot_livraison w d = w * 50 + d ∧
    p_fayda S L P = (S - L) - P ∧
    fayda_safia pf = pf - 500 ∧
    tot_livraison 2 200 = 300 ∧
    p_fayda 3000 300 1000 = 1700 ∧
    fayda_safia 1700 = 1200 ∧
    p_fayda 0 300 1000 = -1300 := by
  refine ⟨rfl, rfl, rfl, ?_, ?_, ?_, ?_⟩ <;>
    norm_num [tot_livraison, p_fayda, fayda_safia]

/-- C2 witness: the spec scenario values, read off the formula claim at
a concrete instantiation. -/
theorem c2_formula_engine_witness :
    tot_livraison 2 200 = 300 ∧ p_fayda 3000 300 1000 = 1700 ∧ fayda_safia 1700 = 1200 := by
  have h := c2_formula_engine 0 0 0 0 0 0
  exact ⟨h.2.2.2.1, h.2.2.2.2.1, h.2.2.2.2.2.1⟩

/-! ## Claim C4: the invoice sequencer contract -/

/-- C4 (amended): `generate_invoice_no` never fails on a parseable
reference date and yields `DZAIR-` followed by the year in plain decimal
(not padded to 4 digits; exactly 4 digits for years 1000-9999), a dash,
and the sequence number zero-padded to at least 3 digits and never
truncated; the sequence is 1 when no sale matches the year pattern,
1 plus the parsed trailing segment of the most recently inserted match
otherwise, and silently 1 again when that segment is unparseable. -/
theorem c4_generate_invoice_contract (sales : List Sale) (ds : String) (d : Date)
    (hd : parseDate ds = some d) :
    generate_invoice_no sales ds = some (mkInvoice d.year (nextSeq sales d.year)) ∧
    (lastMatch sales d.year = none → nextSeq sales d.year = 1) ∧
    (∀ s i, lastMatch sales d.year = some s →
        pyIntParse (lastSegStr s.invoice_no) = some i →
        nextSeq sales d.year = i.toNat + 1) ∧
    (∀ s, lastMatch sales d.year = some s →
        pyIntParse (lastSegStr s.invoice_no) = none → nextSeq sales d.year = 1) ∧
    (∀ y n, (mkInvoice y n).data =
        "DZAIR-".data ++ (natDigits y ++ '-' :: zfill 3 (natDigits n)) ∧
        (zfill 3 (natDigits n)).length = max 3 (natDigits n).length ∧
        pyIntParse (String.mk (zfill 3 (natDigits n))) = some (Int.ofNat n)) ∧
    (1000 ≤ d.year → d.year ≤ 9999 → (natDigits d.year).length = 4) := by
  refine ⟨?_, ?_, ?_, ?_, ?_, natDigits_len4 d.year⟩
  · unfold generate_invoice_no
    rw [hd]
    rfl
  · intro h
    unfold nextSeq
    rw [h]
  · intro s i hm hp
    unfold nextSeq
    rw [hm]
    show (match pyIntParse (lastSegStr s.invoice_no) with
          | some i => i.toNat + 1
          | none => 1) = i.toNat + 1
    rw [hp]
  · intro s hm hp
    unfold nextSeq
    rw [hm]
    show (match pyIntParse (lastSegStr s.invoice_no) with
          | some i => i.toNat + 1
          | none => 1) = 1
    rw [hp]
  · intro y n
    refine ⟨mkInvoice_data y n, ?_, pyIntParse_zfill3 n⟩
    unfold zfill
    rw [List.length_append, List.length_replicate]
    omega

/-- C4 witness: on a ledger whose latest 2024 invoice is
`DZAIR-2024-005`, the reference date 2024-03-01 parses and the generated
invoice is `DZAIR-2024-006`. -/
theorem c4_generate_invoice_contract_witness :
    parseDate "2024-03-01" = some ⟨2024, 3, 1⟩ ∧
    generate_invoice_no seededState.sales "2024-03-01" =
      some (mkInvoice 2024 (nextSeq seededState.sales 2024)) ∧
    mkInvoice 2024 (nextSeq seededState.sales 2024) = "DZAIR-2024-006" :=
  ⟨by decide,
   (c4_generate_invoice_contract seededState.sales "2024-03-01" ⟨2024, 3, 1⟩ (by decide)).1,
   by decide⟩

/-- C4 counterexample: the year of the valid reference date 0099-05-05
is rendered as `99`, not as the 4-digit `0099` the claim asserts, so the
result is not of the claimed `PREFIX-YYYY-NNN` shape. -/
theorem c4_counterexample :
    generate_invoice_no [] "0099-05-05" = some "DZAIR-99-001" ∧
    ¬ claimedInvoiceForm "DZAIR-99-001" 99 := by
  constructor
  · decide
  · intro h
    obtain ⟨nnn, -, -, heq⟩ := h
    have hz : zfill 4 (natDigits 99) = ['0', '0', '9', '9'] := by decide
    have hd1 : "DZAIR-99-001".data =
        ['D', 'Z', 'A', 'I', 'R', '-', '9', '9', '-', '0', '0', '1'] := rfl
    have hd2 : "DZAIR-".data = ['D', 'Z', 'A', 'I', 'R', '-'] := rfl
    rw [hz, hd1, hd2] at heq
    simp at heq

/-! ## Claim C3: per-year invoice sequencing -/

/-- C3: from any ledger whose invoices are well-formed, a successful
`add_sale` assigns sequence 1 when no sale matches the pattern of the
year of the sale date; two consecutive successful calls in the same
year assign consecutive sequence numbers (an increase of exactly 1 per
call); and a call dated in a different year leaves the sequence of any
other year unchanged. -/
theorem c3_invoice_sequencing (st : State) (i1 : SaleInput) (st1 : State) (s1 : Sale)
    (_hwf : ∀ s ∈ st.sales, ∃ y n, s.invoice_no = mkInvoice y n)
    (h1 : add_sale st i1 = .ok (st1, s1)) :
    (lastMatch st.sales i1.today.year = none →
        s1.invoice_no = mkInvoice i1.today.year 1) ∧
    (∀ i2 st2 s2, add_sale st1 i2 = .ok (st2, s2) → i2.today.year = i1.today.year →
        s1.invoice_no = mkInvoice i1.today.year (nextSeq st.sales i1.today.year) ∧
        s2.invoice_no = mkInvoice i1.today.year (nextSeq st.sales i1.today.year + 1)) ∧
    (∀ y, y ≠ i1.today.year → nextSeq st1.sales y = nextSeq st.sales y) := by
  obtain ⟨c, p, q, dopt, hc, hp, hq, hdl, hst1, hs1⟩ := add_sale_ok_inv st i1 st1 s1 h1
  have hinv1 : s1.invoice_no = mkInvoice i1.today.year (nextSeq st.sales i1.today.year) := by
    rw [hs1]
    rfl
  have hsales1 : st1.sales = st.sales ++ [s1] := by
    rw [hst1, hs1]
    rfl
  refine ⟨?_, ?_, ?_⟩
  · intro hnone
    rw [hinv1]
    unfold nextSeq
    rw [hnone]
  · intro i2 st2 s2 h2 hy2
    refine ⟨hinv1, ?_⟩
    obtain ⟨c2, p2, q2, dopt2, hc2, hp2, hq2, hdl2, hst2, hs2⟩ := add_sale_ok_inv st1 i2 st2 s2 h2
    have hinv2 : s2.invoice_no = mkInvoice i2.today.year (nextSeq st1.sales i2.today.year) := by
      rw [hs2]
      rfl
    rw [hinv2, hy2, hsales1]
    rw [nextSeq_concat_same st.sales s1 i1.today.year (nextSeq st.sales i1.today.year) hinv1]
  · intro y hy
    rw [hsales1]
    exact nextSeq_concat_other st.sales s1 y i1.today.year
      (nextSeq st.sales i1.today.year) hinv1 (Ne.symm hy)

/-- C3 witness: on the empty demo ledger, the first sale of 2024 gets
`DZAIR-2024-001`, the second gets `DZAIR-2024-002`, and the 2025
sequence is untouched by the first call. -/
theorem c3_invoice_sequencing_witness :
    lastMatch demoState.sales 2024 = none ∧
    (newSale demoState demoInput demoProduct 1 none).invoice_no = mkInvoice 2024 1 ∧
    (newSale (newState demoState demoInput demoProduct 1 none) demoInput2
        demoProductAfter 1 none).invoice_no = mkInvoice 2024 2 ∧
    nextSeq (newState demoState demoInput demoProduct 1 none).sales 2025 =
      nextSeq demoState.sales 2025 := by
  have h := c3_invoice_sequencing demoState demoInput
    (newState demoState demoInput demoProduct 1 none)
    (newSale demoState demoInput demoProduct 1 none)
    (fun s hs => absurd hs (List.not_mem_nil s)) rfl
  have hb := h.2.1 demoInput2
    (newState (newState demoState demoInput demoProduct 1 none) demoInput2 demoProductAfter 1 none)
    (newSale (newState demoState demoInput demoProduct 1 none) demoInput2 demoProductAfter 1 none)
    rfl rfl
  have hn : nextSeq demoState.sales demoInput.today.year = 1 := by decide
  refine ⟨by decide, ?_, ?_, h.2.2 2025 (by decide)⟩
  · have := hb.1
    rw [hn] at this
    exact this
  · have := hb.2
    rw [hn] at this
    exact this

/-! ## Claim C1: the effects of a successful add_sale -/

/-- C1: a successful `add_sale` persists a sale whose `paid` flag is 1
exactly when the stored status is the literal `Delivered`, whose
snapshot and derived fields are consistent with the product row and the
formulas; it appends exactly that one sale row, adds
`selling_price * quantity` to the client accumulator and 1 to its order
count, subtracts `quantity` from the product stock with no lower bound,
and leaves every other client and product row unchanged. -/
theorem c1_add_sale_effects (st : State) (inp : SaleInput) (st' : State) (sale : Sale)
    (c : Client) (p : Product)
    (hok : add_sale st inp = .ok (st', sale))
    (hc : st.clients.find? (fun x => x.client_id == inp.clientId) = some c)
    (hp : st.products.find? (fun x => x.product_id == inp.productId) = some p) :
    (sale.paid = 1 ↔ sale.status = "Delivered") ∧
    sale.purchase_price = p.purchase_price ∧
    sale.selling_price = p.selling_price.getD 0 ∧
    sale.weight = p.weight.getD 0 ∧
    sale.tot_livraison = tot_livraison sale.weight sale.delivery_price ∧
    sale.p_fayda = p_fayda sale.selling_price sale.tot_livraison sale.purchase_price ∧
    sale.fayda_safia = fayda_safia sale.p_fayda ∧
    st'.sales = st.sales ++ [sale] ∧
    { c with total_spent := c.total_spent + sale.selling_price * (sale.quantity : ℚ),
             total_orders := c.total_orders + 1 } ∈ st'.clients ∧
    { p with stock_qty := p.stock_qty - sale.quantity } ∈ st'.products ∧
    (∀ c' ∈ st.clients, c'.client_id ≠ inp.clientId → c' ∈ st'.clients) ∧
    (∀ p' ∈ st.products, p'.product_id ≠ inp.productId → p' ∈ st'.products) := by
  obtain ⟨c0, p0, q, dopt, hc0, hp0, hq, hdl, hst, hsale⟩ := add_sale_ok_inv st inp st' sale hok
  have hcc : c = c0 := by
    rw [hc0] at hc
    exact (Option.some.inj hc).symm
  have hpp : p = p0 := by
    rw [hp0] at hp
    exact (Option.some.inj hp).symm
  subst hcc
  subst hpp
  subst hst
  subst hsale
  have hcid : (c.client_id == inp.clientId) = true := by
    have := List.find?_some hc0
    simpa using this
  have hpid : (p.product_id == inp.productId) = true := by
    have := List.find?_some hp0
    simpa using this
  have hcm : c ∈ st.clients := List.mem_of_find?_eq_some hc0
  have hpm : p ∈ st.products := List.mem_of_find?_eq_some hp0
  refine ⟨?_, rfl, rfl, rfl, rfl, rfl, rfl, rfl, ?_, ?_, ?_, ?_⟩
  · show (if (if inp.status = "" then "Pending" else inp.status) = "Delivered"
          then 1 else 0) = 1 ↔
         (if inp.status = "" then "Pending" else inp.status) = "Delivered"
    split_ifs with h1 h2 <;> simp_all
  · refine List.mem_map.mpr ⟨c, hcm, ?_⟩
    rw [hcid]
    exact rfl
  · refine List.mem_map.mpr ⟨p, hpm, ?_⟩
    rw [hpid]
    exact rfl
  · intro c' hc' hne
    refine List.mem_map.mpr ⟨c', hc', ?_⟩
    have hfalse : (c'.client_id == inp.clientId) = false := by
      simpa using hne
    rw [hfalse]
    simp
  · intro p' hp' hne
    refine List.mem_map.mpr ⟨p', hp', ?_⟩
    have hfalse : (p'.product_id == inp.productId) = false := by
      simpa using hne
    rw [hfalse]
    simp

/-- C1 witness: the spec scenario on the demo ledger: the persisted
sale is `demoSale`, the client accumulators become 3000 and 1, and the
product stock becomes -1 (below zero, demonstrating the absent floor). -/
theorem c1_add_sale_effects_witness :
    add_sale demoState demoInput = .ok (demoState1, demoSale) ∧
    (demoSale.paid = 1 ↔ demoSale.status = "Delivered") ∧
    demoState1.sales = demoState.sales ++ [demoSale] ∧
    { demoClient with
        total_spent := demoClient.total_spent + demoSale.selling_price * (demoSale.quantity : ℚ),
        total_orders := demoClient.total_orders + 1 } ∈ demoState1.clients ∧
    { demoProduct with stock_qty := demoProduct.stock_qty - demoSale.quantity } ∈
      demoState1.products ∧
    demoProductAfter.stock_qty = -1 := by
  have heq : add_sale demoState demoInput = .ok (demoState1, demoSale) := by
    have h0 : add_sale demoState demoInput =
        .ok (newState demoState demoInput demoProduct 1 none,
             newSale demoState demoInput demoProduct 1 none) := rfl
    rw [h0]
    norm_num [newState, newSale, demoState, demoState1, demoClient, demoProduct, demoInput,
      demoSale, invoiceFor, tot_livraison, p_fayda, fayda_safia, dateToString] <;> decide
  have h := c1_add_sale_effects demoState demoInput demoState1 demoSale demoClient demoProduct
    heq rfl rfl
  exact ⟨heq, h.1, h.2.2.2.2.2.2.2.1, h.2.2.2.2.2.2.2.2.1, h.2.2.2.2.2.2.2.2.2.1, by decide⟩

/-! ## Claim C5: input validation of add_sale -/

/-- C5 counterexample: quantity `"0"` is not a positive integer and
`-5` is a negative delivery override, yet both calls succeed: the sale
is recorded with quantity 0, respectively with delivery price -5,
instead of failing with a `ValidationError`. -/
theorem c5_counterexample :
    (add_sale demoState zeroQtyInput).map (fun r => r.2.quantity) = .ok 0 ∧
    (add_sale demoState negDeliveryInput).map (fun r => r.2.delivery_price) = .ok (-5) := by
  constructor
  · rfl
  · have h0 : (add_sale demoState negDeliveryInput).map (fun r => r.2.delivery_price) =
        .ok ((-1 : ℚ) * ((5 : Nat) : ℚ)) := rfl
    rw [h0]
    norm_num

/-- C5 (amended): `add_sale` validates before any write: a quantity
entry that does not parse as an integer fails with `ValidationError`,
and a nonempty delivery entry that does not parse as a number fails
with `ValidationError`; in each failing case no row is inserted or
updated.  Positivity is not checked: any parsed quantity (zero or
negative included) and any parsed delivery value (negative included) is
accepted. -/
theorem c5_validation (st : State) (inp : SaleInput) (c : Client) (p : Product)
    (hc : st.clients.find? (fun x => x.client_id == inp.clientId) = some c)
    (hp : st.products.find? (fun x => x.product_id == inp.productId) = some p) :
    (∀ q dopt, parseQty inp.qtyStr = some q → parseDeliveryOpt inp.deliveryStr = some dopt →
        ∃ st' sale, add_sale st inp = .ok (st', sale) ∧ sale.quantity = q ∧
          sale.delivery_price = dopt.getD (p.default_delivery_price.getD 0)) ∧
    (parseQty inp.qtyStr = none →
        add_sale st inp = .error (.validation "Quantity must be integer") ∧
        stateAfter st inp = st) ∧
    (∀ q, parseQty inp.qtyStr = some q → parseDeliveryOpt inp.deliveryStr = none →
        add_sale st inp = .error (.validation "Delivery must be numeric") ∧
        stateAfter st inp = st) := by
  refine ⟨?_, ?_, ?_⟩
  · intro q dopt hq hd
    exact ⟨_, _, add_sale_eq_ok st inp c p q dopt hc hp hq hd, rfl, rfl⟩
  · intro hq
    have herr : add_sale st inp = .error (.validation "Quantity must be integer") := by
      unfold add_sale
      rw [hc, hp, hq]
    exact ⟨herr, stateAfter_of_error st inp _ herr⟩
  · intro q hq hd
    have herr : add_sale st inp = .error (.validation "Delivery must be numeric") := by
      unfold add_sale
      rw [hc, hp, hq, hd]
    exact ⟨herr, stateAfter_of_error st inp _ herr⟩

/-- C5 witness: quantity `"abc"` and delivery `"1.2.3"` each fail with
the corresponding `ValidationError` and leave the demo ledger
untouched. -/
theorem c5_validation_witness :
    add_sale demoState badQtyInput = .error (.validation "Quantity must be integer") ∧
    stateAfter demoState badQtyInput = demoState ∧
    add_sale demoState badDeliveryInput = .error (.validation "Delivery must be numeric") ∧
    stateAfter demoState badDeliveryInput = demoState := by
  have h1 := (c5_validation demoState badQtyInput demoClient demoProduct rfl rfl).2.1 rfl
  have h2 := (c5_validation demoState badDeliveryInput demoClient demoProduct rfl rfl).2.2
    1 rfl rfl
  exact ⟨h1.1, h1.2, h2.1, h2.2⟩

/-! ## Claim C6: missing client or product -/

/-- C6: an `add_sale` naming a missing client fails with
`NotFoundError` on the client, one naming a missing product (with an
existing client) fails with `NotFoundError` on the product, and in
either case the ledger is completely unchanged. -/
theorem c6_not_found (st : State) (inp : SaleInput)
    (h : st.clients.find? (fun x => x.client_id == inp.clientId) = none ∨
         st.products.find? (fun x => x.product_id == inp.productId) = none) :
    (st.clients.find? (fun x => x.client_id == inp.clientId) = none →
        add_sale st inp = .error (.notFound "client")) ∧
    (∀ c, st.clients.find? (fun x => x.client_id == inp.clientId) = some c →
        st.products.find? (fun x => x.product_id == inp.productId) = none →
        add_sale st inp = .error (.notFound "product")) ∧
    stateAfter st inp = st := by
  refine ⟨add_sale_error_of_no_client st inp, ?_, ?_⟩
  · intro c hc hp
    exact add_sale_error_of_no_product st inp c hc hp
  · rcases h with h | h
    · exact stateAfter_of_error st inp _ (add_sale_error_of_no_client st inp h)
    · cases hc : st.clients.find? (fun x => x.client_id == inp.clientId) with
      | none => exact stateAfter_of_error st inp _ (add_sale_error_of_no_client st inp hc)
      | some c => exact stateAfter_of_error st inp _ (add_sale_error_of_no_product st inp c hc h)

/-- C6 witness: client id 77 and product id 77 are absent from the demo
ledger; the calls fail with the corresponding `NotFoundError` and leave
the state unchanged. -/
theorem c6_not_found_witness :
    add_sale demoState ghostClientInput = .error (.notFound "client") ∧
    stateAfter demoState ghostClientInput = demoState ∧
    add_sale demoState ghostProductInput = .error (.notFound "product") ∧
    stateAfter demoState ghostProductInput = demoState := by
  have h1 := c6_not_found demoState ghostClientInput (Or.inl rfl)
  have h2 := c6_not_found demoState ghostProductInput (Or.inr rfl)
  exact ⟨h1.1 rfl, h1.2.2, h2.2.1 demoClient rfl rfl, h2.2.2⟩

/-! ## Claim C7: the dashboard totals -/

theorem sum_map_pf_of_consistent (l : List Sale)
    (h : ∀ s ∈ l, s.fayda_safia = s.p_fayda - 500) :
    (l.map (fun s => s.p_fayda)).sum =
      (l.map (fun s => s.fayda_safia)).sum + 500 * l.length := by
  induction l with
  | nil => simp
  | cons a rest ih =>
    simp only [List.map_cons, List.sum_cons, List.length_cons]
    rw [ih (fun s hs => h s (List.mem_cons_of_mem a hs)), h a (List.mem_cons_self a rest)]
    push_cast
    ring

/-- C7 counterexample: on a ledger with one sale whose gross profit is
1700 and net profit 1200, the dashboard profit figure is 1700, the sum
of `p_fayda`, not the claimed sum of `fayda_safia` (1200). -/
theorem c7_counterexample :
    (refresh_dashboard demoState1).2.1 = 1700 ∧
    (demoState1.sales.map (fun s => s.fayda_safia)).sum = 1200 ∧
    (refresh_dashboard demoState1).2.1 ≠ (demoState1.sales.map (fun s => s.fayda_safia)).sum := by
  refine ⟨?_, ?_, ?_⟩ <;>
    norm_num [refresh_dashboard, demoState1, demoSale]

/-- C7 (amended): `refresh_dashboard` returns the number of sales, the
sum of the GROSS profit `p_fayda` (exceeding the sum of net profit
`fayda_safia` by 500 per sale on formula-consistent rows), and the sum
of delivery cost `tot_livraison`; an empty ledger yields `(0, 0, 0)`
rather than an error. -/
theorem c7_dashboard_totals (st : State)
    (hcons : ∀ s ∈ st.sales, s.fayda_safia = s.p_fayda - 500) :
    (refresh_dashboard st).1 = st.sales.length ∧
    (refresh_dashboard st).2.1 = (st.sales.map (fun s => s.p_fayda)).sum ∧
    (refresh_dashboard st).2.2 = (st.sales.map (fun s => s.tot_livraison)).sum ∧
    (refresh_dashboard st).2.1 =
      (st.sales.map (fun s => s.fayda_safia)).sum + 500 * st.sales.length ∧
    (st.sales = [] → refresh_dashboard st = (0, 0, 0)) := by
  refine ⟨rfl, rfl, rfl, sum_map_pf_of_consistent st.sales hcons, ?_⟩
  intro h
  unfold refresh_dashboard
  rw [h]
  rfl

/-- C7 witness: the demo ledger after one sale is formula-consistent
and its dashboard profit figure is the net-profit sum plus 500 times
the sale count. -/
theorem c7_dashboard_totals_witness :
    (refresh_dashboard demoState1).2.1 =
      (demoState1.sales.map (fun s => s.fayda_safia)).sum + 500 * demoState1.sales.length := by
  have hcons : ∀ s ∈ demoState1.sales, s.fayda_safia = s.p_fayda - 500 := by
    intro s hs
    have : s = demoSale := by simpa [demoState1] using hs
    subst this
    norm_num [demoSale]
  exact (c7_dashboard_totals demoState1 hcons).2.2.2.1

/-! ## Claim C9: the empty quantity entry defaults to 1 -/

/-- C9: when the quantity entry is empty (and the other inputs are
well-formed), `add_sale` does not fail validation: the sale is recorded
with quantity 1. -/
theorem c9_empty_qty_defaults (st : State) (inp : SaleInput) (c : Client) (p : Product)
    (dopt : Option ℚ)
    (hc : st.clients.find? (fun x => x.client_id == inp.clientId) = some c)
    (hp : st.products.find? (fun x => x.product_id == inp.productId) = some p)
    (hq : inp.qtyStr = "")
    (hd : parseDeliveryOpt inp.deliveryStr = some dopt) :
    ∃ st' sale, add_sale st inp = .ok (st', sale) ∧ sale.quantity = 1 := by
  have hq1 : parseQty inp.qtyStr = some 1 := by
    rw [parseQty, hq]
    rfl
  exact ⟨_, _, add_sale_eq_ok st inp c p 1 dopt hc hp hq1 hd, rfl⟩

/-- C9 witness: the demo sale with an empty quantity entry succeeds and
records quantity 1. -/
theorem c9_empty_qty_defaults_witness :
    (add_sale demoState emptyQtyInput).map (fun r => r.2.quantity) = .ok 1 := by
  obtain ⟨st', sale, hok, hqty⟩ :=
    c9_empty_qty_defaults demoState emptyQtyInput demoClient demoProduct none rfl rfl rfl rfl
  rw [hok]
  show Except.ok sale.quantity = Except.ok 1
  rw [hqty]

/-! ## Claim C10: NULL product columns default to 0 -/

/-- C10: a product whose `weight`, `default_delivery_price` or
`selling_price` column is NULL is snapshotted with 0 in that field
(`or 0` in the source); in particular a product with no selling price
yields a sale with selling price 0 and the client spend rises by 0,
and the call does not fail. -/
theorem c10_null_columns_default (st : State) (inp : SaleInput) (c : Client) (p : Product)
    (q : Int) (dopt : Option ℚ)
    (hc : st.clients.find? (fun x => x.client_id == inp.clientId) = some c)
    (hp : st.products.find? (fun x => x.product_id == inp.productId) = some p)
    (hq : parseQty inp.qtyStr = some q)
    (hd : parseDeliveryOpt inp.deliveryStr = some dopt) :
    ∃ st' sale, add_sale st inp = .ok (st', sale) ∧
      sale.weight = p.weight.getD 0 ∧
      sale.selling_price = p.selling_price.getD 0 ∧
      sale.delivery_price = dopt.getD (p.default_delivery_price.getD 0) ∧
      (p.weight = none → sale.weight = 0) ∧
      (p.default_delivery_price = none → dopt = none → sale.delivery_price = 0) ∧
      (p.selling_price = none → sale.selling_price = 0 ∧
        { c with total_orders := c.total_orders + 1 } ∈ st'.clients) := by
  refine ⟨_, _, add_sale_eq_ok st inp c p q dopt hc hp hq hd, rfl, rfl, rfl, ?_, ?_, ?_⟩
  · intro h
    show p.weight.getD 0 = 0
    rw [h]
    rfl
  · intro h1 h2
    show dopt.getD (p.default_delivery_price.getD 0) = 0
    rw [h1, h2]
    rfl
  · intro h
    have hsp : (newSale st inp p q dopt).selling_price = 0 := by
      show p.selling_price.getD 0 = 0
      rw [h]
      rfl
    refine ⟨hsp, ?_⟩
    have hcid : (c.client_id == inp.clientId) = true := by
      have := List.find?_some hc
      simpa using this
    have hcm : c ∈ st.clients := List.mem_of_find?_eq_some hc
    refine List.mem_map.mpr ⟨c, hcm, ?_⟩
    rw [hcid]
    show (if true = true then _ else c) = _
    rw [if_pos rfl]
    rw [hsp]
    have hz : c.total_spent + 0 * (q : ℚ) = c.total_spent := by ring
    rw [hz]

/-- C10 witness: selling a product whose three nullable columns are all
NULL succeeds, snapshots weight, selling price and delivery price as 0,
and leaves the client spend unchanged while its order count rises. -/
theorem c10_null_columns_default_witness :
    (add_sale nullState nullInput).map
      (fun r => (r.2.weight, r.2.selling_price, r.2.delivery_price)) = .ok (0, 0, 0) ∧
    { demoClient with total_orders := demoClient.total_orders + 1 } ∈
      (newState nullState nullInput nullProduct 3 none).clients := by
  obtain ⟨st', sale, hok, hw, hsp, hdp, hwn, hdpn, hspn⟩ :=
    c10_null_columns_default nullState nullInput demoClient nullProduct 3 none rfl rfl rfl rfl
  obtain ⟨hsp0, hmem⟩ := hspn rfl
  constructor
  · rw [hok]
    show Except.ok (sale.weight, sale.selling_price, sale.delivery_price) = .ok (0, 0, 0)
    rw [hwn rfl, hsp0, hdpn rfl rfl]
  · have hrfl : add_sale nullState nullInput =
        .ok (newState nullState nullInput nullProduct 3 none,
             newSale nullState nullInput nullProduct 3 none) := rfl
    have hpair := hok.symm.trans hrfl
    rw [Except.ok.injEq, Prod.mk.injEq] at hpair
    rw [← hpair.1]
    exact hmem

/-! ## Claim C8: date-range filtering of refresh_sales -/

theorem dateBoth_iff (fd td : Date) (sale : Sale) :
    (dateOkFrom (some fd) sale && dateOkTo (some td) sale) = true ↔
      ∃ sd, parseDate sale.date = some sd ∧ fd.key ≤ sd.key ∧ sd.key ≤ td.key := by
  unfold dateOkFrom dateOkTo
  cases h : parseDate sale.date with
  | none => simp
  | some sd => simp [h]

theorem parseDate_empty : parseDate "" = none := rfl

/-- C8: with both stripped date bounds parseable, `refresh_sales`
returns (most recently inserted first) exactly the sales whose stored
calendar date lies in the inclusive range, the other rows being
filtered out; a malformed nonempty from-bound fails with the
`ValidationError` naming the from-bound and returns no rows; with the
from-bound empty or valid, a malformed nonempty to-bound fails with the
`ValidationError` naming the to-bound; and with every filter omitted
all sales are returned in insertion-descending order. -/
theorem c8_refresh_sales_range (st : State) (f : Filter) (fd td : Date) :
    (strTrim f.search = "" → parseDate (strTrim f.dateFrom) = some fd →
        parseDate (strTrim f.dateTo) = some td →
        refresh_sales st f = .ok ((st.sales.filter (fun sale =>
          dateOkFrom (some fd) sale && dateOkTo (some td) sale)).reverse) ∧
        (∀ sale res, refresh_sales st f = .ok res →
          (sale ∈ res ↔ sale ∈ st.sales ∧
            ∃ sd, parseDate sale.date = some sd ∧ fd.key ≤ sd.key ∧ sd.key ≤ td.key))) ∧
    (strTrim f.dateFrom ≠ "" → parseDate (strTrim f.dateFrom) = none →
        refresh_sales st f = .error (.validation "From date must be YYYY-MM-DD")) ∧
    ((strTrim f.dateFrom = "" ∨ parseDate (strTrim f.dateFrom) = some fd) →
        strTrim f.dateTo ≠ "" → parseDate (strTrim f.dateTo) = none →
        refresh_sales st f = .error (.validation "To date must be YYYY-MM-DD")) ∧
    (strTrim f.search = "" → strTrim f.dateFrom = "" → strTrim f.dateTo = "" →
        refresh_sales st f = .ok st.sales.reverse) := by
  refine ⟨?_, ?_, ?_, ?_⟩
  · intro hs hf ht
    have hdfne : strTrim f.dateFrom ≠ "" := by
      intro he
      rw [he, parseDate_empty] at hf
      exact Option.noConfusion hf
    have hdtne : strTrim f.dateTo ≠ "" := by
      intro he
      rw [he, parseDate_empty] at ht
      exact Option.noConfusion ht
    have hmain : refresh_sales st f = .ok ((st.sales.filter (fun sale =>
        dateOkFrom (some fd) sale && dateOkTo (some td) sale)).reverse) := by
      unfold refresh_sales
      dsimp only
      rw [if_neg hdfne, if_neg hdtne, hf, ht, hs]
      show Except.ok ((st.sales.filter (fun sale =>
        (if ("" : String) = "" then true else searchClause st (strTrim f.search).data sale) &&
        dateOkFrom (some fd) sale && dateOkTo (some td) sale)).reverse) = _
      have hif : (fun (sale : Sale) =>
          (if ("" : String) = "" then true else searchClause st (strTrim f.search).data sale) &&
          dateOkFrom (some fd) sale && dateOkTo (some td) sale) =
          (fun sale => dateOkFrom (some fd) sale && dateOkTo (some td) sale) := by
        funext sale
        rw [if_pos rfl, Bool.true_and]
      rw [hif]
    refine ⟨hmain, ?_⟩
    intro sale res hres
    rw [hmain] at hres
    have hr : res = (st.sales.filter (fun sale =>
        dateOkFrom (some fd) sale && dateOkTo (some td) sale)).reverse :=
      (Except.ok.inj hres).symm
    subst hr
    rw [List.mem_reverse, List.mem_filter, dateBoth_iff]
  · intro hdfne hf
    unfold refresh_sales
    dsimp only
    rw [if_neg hdfne, hf]
    rfl
  · intro hor hdtne ht
    unfold refresh_sales
    dsimp only
    rcases hor with h | h
    · rw [if_pos h, if_neg hdtne, ht]
      rfl
    · have hdfne : strTrim f.dateFrom ≠ "" := by
        intro he
        rw [he, parseDate_empty] at h
        exact Option.noConfusion h
      rw [if_neg hdfne, h, if_neg hdtne, ht]
      rfl
  · intro hs hdf hdt
    unfold refresh_sales
    dsimp only
    rw [if_pos hdf, if_pos hdt, hs]
    show Except.ok ((st.sales.filter (fun sale =>
      (if ("" : String) = "" then true else searchClause st (strTrim f.search).data sale) &&
      dateOkFrom none sale && dateOkTo none sale)).reverse) = _
    have hif : (fun (sale : Sale) =>
        (if ("" : String) = "" then true else searchClause st (strTrim f.search).data sale) &&
        dateOkFrom none sale && dateOkTo none sale) = (fun _ => true) := by
      funext sale
      rw [if_pos rfl]
      rfl
    rw [hif]
    congr 1
    have hall : st.sales.filter (fun _ => true) = st.sales := by
      apply List.filter_eq_self.mpr
      intro a _
      rfl
    rw [hall]

/-- C8 witness: on three sales dated 2024-01-05, 2024-01-31 and
2024-02-02, the January 2024 range returns exactly the two January
sales (inclusive bounds, most recent first); the malformed bounds
`2024-13-01` and `31/01/2024` fail with the from- and to-bound
`ValidationError` respectively. -/
theorem c8_refresh_sales_range_witness :
    refresh_sales rangeState janFilter = .ok [rangeSale2, rangeSale1] ∧
    refresh_sales rangeState badFromFilter =
      .error (.validation "From date must be YYYY-MM-DD") ∧
    refresh_sales rangeState badToFilter =
      .error (.validation "To date must be YYYY-MM-DD") := by
  have h := c8_refresh_sales_range rangeState janFilter ⟨2024, 1, 1⟩ ⟨2024, 1, 31⟩
  have h1 := (h.1 (by decide) (by decide) (by decide)).1
  have h2 := (c8_refresh_sales_range rangeState badFromFilter ⟨2024, 1, 1⟩ ⟨2024, 1, 31⟩).2.1
    (by decide) (by decide)
  have h3 := (c8_refresh_sales_range rangeState badToFilter ⟨2024, 1, 1⟩ ⟨2024, 1, 31⟩).2.2.1
    (Or.inr (by decide)) (by decide) (by decide)
  refine ⟨?_, h2, h3⟩
  rw [h1]
  decide

end Dzair
